import Mathlib

/-!
Shallow embedding of `src/backend/main.py` (Agent Support Automation portal
service) and proofs about its claims.

The SQLite store is modelled as lists of rows plus AUTOINCREMENT counters;
each HTTP handler becomes a pure function from the store (and the request
data) to a result and an updated store.  `hashlib.sha256(...).hexdigest()`
(`hash_api_key`) is kept abstract as a function parameter `hashFn`: no claim
depends on any property of the digest beyond its value.  Raising
`HTTPException` is modelled with `Except`/an error sum; handlers that can
write return the (possibly unchanged) store alongside the result, so that
"store unchanged" facts are plain equalities.
-/

/-- HTTP-level error outcomes of the service.  `unauthorized` is 401,
`notFound` is 404, `unprocessableEntity` is FastAPI's 422 validation
failure (a required header/parameter missing), `internalError` is the
generic 500 for unhandled store failures (§7 of the spec), e.g. a
violation of the UNIQUE constraint on `api_keys.key_hash`. -/
inductive HError where
  | unauthorized
  | notFound
  | unprocessableEntity
  | internalError
deriving DecidableEq, Repr

/-- Substring test on character lists: does the second list contain the
first as a contiguous infix?  Models Python's `needle in haystack`. -/
def listContainsSub (needle : List Char) : List Char → Bool
  | [] => needle.isEmpty
  | c :: rest => needle.isPrefixOf (c :: rest) || listContainsSub needle rest

/-- `strContains hay needle` models Python's `needle in hay` on strings. -/
def strContains (hay needle : String) : Bool :=
  listContainsSub needle.data hay.data

/-- Python's `str.lower()`, character by character.  `Char.toLower` folds
ASCII letters, which covers every keyword the responder matches on;
exotic Unicode case foldings are outside the model. -/
def strLower (s : String) : String :=
  ⟨s.data.map Char.toLower⟩

/-- Canned reply of `generate_ai_response` for the API-key keyword set
(main.py lines 406-412). -/
def apiKeyResponse : String :=
  "To rotate your API key:\n1. Go to the \x27API Keys\x27 tab\n2. Click \x27Rotate Key\x27 next to your current key\n3. Save the new key immediately (it won\x27t be shown again)\n\nYour old key will be revoked automatically."

/-- Canned reply for the usage keyword set (main.py lines 416-422). -/
def usageResponse : String :=
  "You can view your real-time usage statistics on the dashboard:\n- Today\x27s requests\n- This month\x27s total\n- All-time usage\n\nVisit the \x27Usage\x27 tab for detailed analytics."

/-- Canned reply for the billing keyword set (main.py lines 426-432). -/
def billingResponse : String :=
  "Your billing history is available in the \x27Billing\x27 tab. You\x27ll find:\n- All invoices (last 12 months)\n- Payment status\n- Usage breakdown\n\nFor refunds or billing disputes, please reply to this ticket and we\x27ll prioritize it."

/-- Canned reply for the rate-limit keyword set (main.py lines 436-441). -/
def rateLimitResponse : String :=
  "You\x27ve hit your rate limit. Check the \x27Usage\x27 tab for:\n- Current limit remaining\n- Reset time (usually midnight UTC)\n\nTo increase your limit, upgrade your plan or contact us for custom limits."

/-- `generate_ai_response` (main.py lines 400-444): lowercases
`subject + " " + message` and returns the first matching keyword set's
canned reply, in the fixed priority order API key, usage, billing,
rate limit; `none` when no set matches.  The `category` argument is
accepted and ignored, exactly as in the source. -/
def generate_ai_response (subject message _category : String) : Option String :=
  let text := strLower (subject ++ " " ++ message)
  if strContains text "api key" || strContains text "reset key" then
    some apiKeyResponse
  else if strContains text "usage" || strContains text "how many" || strContains text "calls" then
    some usageResponse
  else if strContains text "bill" || strContains text "charge" || strContains text "invoice" then
    some billingResponse
  else if strContains text "429" || strContains text "rate limit" || strContains text "too many requests" then
    some rateLimitResponse
  else
    none

/-- Row of the `api_keys` table (main.py lines 68-78).  `created_at` and
`last_used` are not modelled as values: no claim depends on them, and
newest-first ordering is realized through insertion order (rows are kept in
creation order, so reversal gives `ORDER BY created_at DESC`). -/
structure ApiKeyRow where
  id : Nat
  customer_id : String
  key_hash : String
  name : String
  revoked : Bool
deriving DecidableEq, Repr

/-- A naive Python `datetime` value (no timezone), microseconds included:
`datetime.replace(hour=0, minute=0, second=0)` keeps the microsecond
field, which matters for the reset-time computation on line 280. -/
structure PyDateTime where
  year : Nat
  month : Nat
  day : Nat
  hour : Nat
  minute : Nat
  second : Nat
  microsecond : Nat
deriving DecidableEq, Repr

/-- Row of the `usage` table (main.py lines 81-90). -/
structure UsageEventRow where
  customer_id : String
  api_key_hash : String
  timestamp : PyDateTime
  endpoint : String
  success : Bool
deriving DecidableEq, Repr

/-- Row of the `tickets` table (main.py lines 93-105); `created_at` and the
always-NULL `resolved_at` are not modelled as values (see `ApiKeyRow`). -/
structure TicketRow where
  id : Nat
  customer_id : String
  subject : String
  message : String
  category : String
  status : String
  ai_responded : Bool
deriving DecidableEq, Repr

/-- Row of the `ticket_responses` table (main.py lines 108-117). -/
structure TicketResponseRow where
  id : Nat
  ticket_id : Nat
  from_agent : Bool
  message : String
deriving DecidableEq, Repr

/-- Row of the `billing` table (main.py lines 120-130).  The REAL `amount`
column is not modelled: it is floating point and no claim concerns it. -/
structure BillingRow where
  id : Nat
  customer_id : String
  invoice_id : String
  status : String
  description : Option String
deriving DecidableEq, Repr

/-- The relational store: the five tables in insertion order plus the
AUTOINCREMENT counters that assign fresh primary keys. -/
structure Store where
  api_keys : List ApiKeyRow
  usage : List UsageEventRow
  tickets : List TicketRow
  ticket_responses : List TicketResponseRow
  billing : List BillingRow
  next_key_id : Nat
  next_ticket_id : Nat
  next_response_id : Nat
deriving DecidableEq, Repr

/-- Schema-derived well-formedness of the `api_keys` table: primary keys
are distinct, `key_hash` is UNIQUE (line 72), and every existing id is
below the AUTOINCREMENT counter. -/
def Store.KeysWF (s : Store) : Prop :=
  (s.api_keys.map ApiKeyRow.id).Nodup ∧
  (s.api_keys.map ApiKeyRow.key_hash).Nodup ∧
  ∀ k ∈ s.api_keys, k.id < s.next_key_id

/-- Schema-derived well-formedness of the `tickets` table: every existing
ticket id is below the AUTOINCREMENT counter. -/
def Store.TicketsWF (s : Store) : Prop :=
  ∀ t ∈ s.tickets, t.id < s.next_ticket_id

/-- `verify_customer` (main.py lines 141-144) composed with the semantics
of its `Header(..., alias="X-Customer-ID")` declaration: the header is a
required parameter, so FastAPI rejects a request without it with a 422
validation error before the dependency body ever runs; the body's
`if not customer_id` check therefore fires only for an empty header value
(the empty string is the only falsy `str`) and raises 401. -/
def verify_customer (header : Option String) : Except HError String :=
  match header with
  | none => .error .unprocessableEntity
  | some customer_id =>
    if customer_id == "" then .error .unauthorized else .ok customer_id

/-- Result payload of `create_api_key` / `rotate_api_key` (the `name` field
is only present on create). -/
structure NewKeyResult where
  key_id : Nat
  api_key : String
deriving DecidableEq, Repr

/-- `create_api_key` (main.py lines 148-170).  The fresh plaintext
`new_key` (`sk_` + random token in the source) is an explicit argument;
only its digest `hashFn new_key` is persisted.  An INSERT that violates
the UNIQUE constraint on `key_hash` is an uncommitted, unhandled sqlite
error: the request fails with a 500 and the store is unchanged. -/
def create_api_key (hashFn : String → String) (s : Store)
    (customer_id key_name new_key : String) :
    Except HError NewKeyResult × Store :=
  let key_hash := hashFn new_key
  if s.api_keys.any (fun k => k.key_hash == key_hash) then
    (.error .internalError, s)
  else
    (.ok ⟨s.next_key_id, new_key⟩,
     { s with
       api_keys := s.api_keys ++ [⟨s.next_key_id, customer_id, key_hash, key_name, false⟩],
       next_key_id := s.next_key_id + 1 })

/-- `rotate_api_key` (main.py lines 172-212): find the first non-revoked
row of this customer whose `key_hash` is the digest of `old_key`
(`fetchone` on the SELECT of lines 181-184); absent, fail 404 with the
store untouched.  Otherwise revoke that row by id, insert a new key named
"Rotated Key" whose hash is the digest of the fresh plaintext `new_key`,
and return the new plaintext.  A UNIQUE violation on the insert aborts
the uncommitted transaction: 500, store unchanged. -/
def rotate_api_key (hashFn : String → String) (s : Store)
    (customer_id old_key new_key : String) :
    Except HError NewKeyResult × Store :=
  let old_hash := hashFn old_key
  match s.api_keys.find?
      (fun k => k.customer_id == customer_id && k.key_hash == old_hash && k.revoked == false) with
  | none => (.error .notFound, s)
  | some row =>
    let new_hash := hashFn new_key
    if s.api_keys.any (fun k => k.key_hash == new_hash) then
      (.error .internalError, s)
    else
      (.ok ⟨s.next_key_id, new_key⟩,
       { s with
         api_keys :=
           (s.api_keys.map (fun k => if k.id == row.id then { k with revoked := true } else k))
             ++ [⟨s.next_key_id, customer_id, new_hash, "Rotated Key", false⟩],
         next_key_id := s.next_key_id + 1 })

/-- Metadata returned per key by `list_api_keys`; digests and plaintext are
never exposed (`created_at`/`last_used` not modelled, see `ApiKeyRow`). -/
structure ApiKeyView where
  key_id : Nat
  name : String
  revoked : Bool
deriving DecidableEq, Repr

/-- `list_api_keys` (main.py lines 214-235): the customer's keys, newest
first (reverse insertion order models `ORDER BY created_at DESC`). -/
def list_api_keys (s : Store) (customer_id : String) : List ApiKeyView :=
  ((s.api_keys.filter (fun k => k.customer_id == customer_id)).reverse).map
    (fun k => ⟨k.id, k.name, k.revoked⟩)

/-- `revoke_api_key` (main.py lines 237-248): one UPDATE setting
`revoked = 1` on rows matching both id and customer, then the fixed
success message, whether or not any row matched. -/
def revoke_api_key (s : Store) (customer_id : String) (key_id : Nat) :
    String × Store :=
  ("API key revoked",
   { s with
     api_keys := s.api_keys.map
       (fun k => if k.id == key_id && k.customer_id == customer_id then { k with revoked := true } else k) })

/-- Same calendar day, modelling sqlite `DATE(timestamp) = DATE('now')`. -/
def sameDay (a b : PyDateTime) : Bool :=
  a.year == b.year && a.month == b.month && a.day == b.day

/-- Same calendar month, modelling
`strftime('%Y-%m', timestamp) = strftime('%Y-%m', 'now')`. -/
def sameMonth (a b : PyDateTime) : Bool :=
  a.year == b.year && a.month == b.month

/-- Gregorian leap year, as in Python's calendar. -/
def isLeapYear (y : Nat) : Bool :=
  (y % 4 == 0 && y % 100 != 0) || y % 400 == 0

/-- Days in a Gregorian month. -/
def daysInMonth (y m : Nat) : Nat :=
  if m == 2 then (if isLeapYear y then 29 else 28)
  else if m == 4 || m == 6 || m == 9 || m == 11 then 30
  else 31

/-- `d + timedelta(days=1)` for a valid Gregorian date (time fields kept). -/
def addOneDay (d : PyDateTime) : PyDateTime :=
  if d.day < daysInMonth d.year d.month then { d with day := d.day + 1 }
  else if d.month < 12 then { d with month := d.month + 1, day := 1 }
  else { d with year := d.year + 1, month := 1, day := 1 }

/-- Response model `UsageStats` (main.py lines 48-53); the rate limit can
go negative, so it is an `Int`. -/
structure UsageStats where
  today : Nat
  this_month : Nat
  all_time : Nat
  current_rate_limit : Int
  rate_limit_reset : Option PyDateTime
deriving DecidableEq, Repr

/-- `get_usage_stats` (main.py lines 250-288).  The three COUNT(*) queries
become filtered lengths; `now` is the single reference clock standing for
both sqlite's `'now'` and `datetime.now()` (i.e. a UTC-configured host).
The reset time is `(now + timedelta(days=1)).replace(hour=0, minute=0,
second=0)` — the microsecond field is NOT zeroed, exactly as on line 280 —
and is reported only when today's count is positive. -/
def get_usage_stats (s : Store) (customer_id : String) (now : PyDateTime) :
    UsageStats :=
  let today :=
    (s.usage.filter (fun e => e.customer_id == customer_id && sameDay e.timestamp now)).length
  let this_month :=
    (s.usage.filter (fun e => e.customer_id == customer_id && sameMonth e.timestamp now)).length
  let all_time := (s.usage.filter (fun e => e.customer_id == customer_id)).length
  let rate_limit : Int := 1000
  let reset_time := { addOneDay now with hour := 0, minute := 0, second := 0 }
  { today := today
    this_month := this_month
    all_time := all_time
    current_rate_limit := rate_limit - (today : Int)
    rate_limit_reset := if today > 0 then some reset_time else none }

/-- Shape of a billing line as returned by `get_billing_history` (`date`
and the floating-point `amount` not modelled, see `BillingRow`). -/
structure BillingView where
  invoice_id : String
  status : String
  description : String
deriving DecidableEq, Repr

/-- `get_billing_history` (main.py lines 290-311): the customer's records,
newest first, at most 12, with the description defaulted to "API Usage"
when NULL (`row[4] or "API Usage"`, and an empty string is falsy too). -/
def get_billing_history (s : Store) (customer_id : String) : List BillingView :=
  (((s.billing.filter (fun b => b.customer_id == customer_id)).reverse).take 12).map
    (fun b =>
      ⟨b.invoice_id, b.status,
       match b.description with
       | none => "API Usage"
       | some d => if d == "" then "API Usage" else d⟩)

/-- Result payload of `create_ticket` (main.py lines 339-344). -/
structure CreateTicketResult where
  ticket_id : Nat
  status : String
  ai_responded : Bool
deriving DecidableEq, Repr

/-- `create_ticket` (main.py lines 313-344): insert the ticket row (status
defaults to "open", `ai_responded` to 0), then evaluate
`generate_ai_response`; when it returns a reply, insert a `from_agent =
false` response row for the new ticket and UPDATE the ticket's
`ai_responded` to 1. -/
def create_ticket (s : Store) (customer_id subject message category : String) :
    CreateTicketResult × Store :=
  let ticket_id := s.next_ticket_id
  let row : TicketRow := ⟨ticket_id, customer_id, subject, message, category, "open", false⟩
  let s1 := { s with tickets := s.tickets ++ [row], next_ticket_id := ticket_id + 1 }
  match generate_ai_response subject message category with
  | some resp =>
    (⟨ticket_id, "open", true⟩,
     { s1 with
       ticket_responses := s1.ticket_responses ++ [⟨s1.next_response_id, ticket_id, false, resp⟩],
       next_response_id := s1.next_response_id + 1,
       tickets := s1.tickets.map
         (fun t => if t.id == ticket_id then { t with ai_responded := true } else t) })
  | none => (⟨ticket_id, "open", false⟩, s1)

/-- `list_tickets` (main.py lines 346-369): the customer's ticket rows,
newest first (reverse insertion order models `ORDER BY created_at DESC`;
the HTTP layer projects the row columns into JSON). -/
def list_tickets (s : Store) (customer_id : String) : List TicketRow :=
  (s.tickets.filter (fun t => t.customer_id == customer_id)).reverse

/-- `get_ticket_responses` (main.py lines 371-397): 404 unless a ticket
with this id belongs to the requesting customer; otherwise the response
rows of that ticket in insertion order (`ORDER BY created_at ASC`; the
HTTP layer projects `from_agent`, `message`, `created_at`). -/
def get_ticket_responses (s : Store) (customer_id : String) (ticket_id : Nat) :
    Except HError (List TicketResponseRow) :=
  match s.tickets.find? (fun t => t.id == ticket_id && t.customer_id == customer_id) with
  | none => .error .notFound
  | some _ => .ok (s.ticket_responses.filter (fun r => r.ticket_id == ticket_id))

/-- POST `/api/keys/rotate` with its `Depends(verify_customer)` gate. -/
def rotate_endpoint (hashFn : String → String) (s : Store)
    (header : Option String) (old_key new_key : String) :
    Except HError NewKeyResult × Store :=
  match verify_customer header with
  | .error e => (.error e, s)
  | .ok customer_id => rotate_api_key hashFn s customer_id old_key new_key

/-- GET `/api/keys/list` with its `Depends(verify_customer)` gate. -/
def list_keys_endpoint (s : Store) (header : Option String) :
    Except HError (List ApiKeyView) :=
  match verify_customer header with
  | .error e => .error e
  | .ok customer_id => .ok (list_api_keys s customer_id)

/-- DELETE `/api/keys/{key_id}` with its `Depends(verify_customer)` gate. -/
def revoke_endpoint (s : Store) (header : Option String) (key_id : Nat) :
    Except HError String × Store :=
  match verify_customer header with
  | .error e => (.error e, s)
  | .ok customer_id =>
    let r := revoke_api_key s customer_id key_id
    (.ok r.1, r.2)

/-- GET `/api/usage/stats` with its `Depends(verify_customer)` gate. -/
def usage_stats_endpoint (s : Store) (header : Option String) (now : PyDateTime) :
    Except HError UsageStats :=
  match verify_customer header with
  | .error e => .error e
  | .ok customer_id => .ok (get_usage_stats s customer_id now)

/-- GET `/api/billing/history` with its `Depends(verify_customer)` gate. -/
def billing_history_endpoint (s : Store) (header : Option String) :
    Except HError (List BillingView) :=
  match verify_customer header with
  | .error e => .error e
  | .ok customer_id => .ok (get_billing_history s customer_id)

/-- POST `/api/tickets/create` with its `Depends(verify_customer)` gate. -/
def create_ticket_endpoint (s : Store) (header : Option String)
    (subject message category : String) :
    Except HError CreateTicketResult × Store :=
  match verify_customer header with
  | .error e => (.error e, s)
  | .ok customer_id =>
    let r := create_ticket s customer_id subject message category
    (.ok r.1, r.2)

/-- GET `/api/tickets/list` with its `Depends(verify_customer)` gate. -/
def list_tickets_endpoint (s : Store) (header : Option String) :
    Except HError (List TicketRow) :=
  match verify_customer header with
  | .error e => .error e
  | .ok customer_id => .ok (list_tickets s customer_id)

/-- GET `/api/tickets/{ticket_id}/responses` with its
`Depends(verify_customer)` gate. -/
def ticket_responses_endpoint (s : Store) (header : Option String)
    (ticket_id : Nat) : Except HError (List TicketResponseRow) :=
  match verify_customer header with
  | .error e => .error e
  | .ok customer_id => get_ticket_responses s customer_id ticket_id


/-- The lowercased `subject + " " + message` the responder matches on
(main.py line 402). -/
def responderText (subject message : String) : String :=
  strLower (subject ++ " " ++ message)

/-- The API-key keyword set (main.py line 405). -/
def matchesApiKeySet (text : String) : Bool :=
  strContains text "api key" || strContains text "reset key"

/-- The usage keyword set (main.py line 415). -/
def matchesUsageSet (text : String) : Bool :=
  strContains text "usage" || strContains text "how many" || strContains text "calls"

/-- The billing keyword set (main.py line 425). -/
def matchesBillingSet (text : String) : Bool :=
  strContains text "bill" || strContains text "charge" || strContains text "invoice"

/-- The rate-limit keyword set (main.py line 435). -/
def matchesRateLimitSet (text : String) : Bool :=
  strContains text "429" || strContains text "rate limit" || strContains text "too many requests"

/-- The reset instant as the spec words it for C8: "the next local
midnight (the following day at 00:00:00)" — the following calendar day
with every time-of-day field zero.  Used only to compare the code's
actual reset value against the claim. -/
def specNextMidnight (now : PyDateTime) : PyDateTime :=
  { year := (addOneDay now).year, month := (addOneDay now).month,
    day := (addOneDay now).day, hour := 0, minute := 0, second := 0,
    microsecond := 0 }

/-- The UPDATE of `revoke_api_key` as a table transformation; definitionally
the map inside `revoke_api_key`. -/
def revokeUpdate (customer_id : String) (key_id : Nat) (l : List ApiKeyRow) :
    List ApiKeyRow :=
  l.map (fun k => if k.id == key_id && k.customer_id == customer_id then { k with revoked := true } else k)

/-- A digest stand-in for witnesses: appends "hash" to the plaintext. -/
def hashW : String → String := fun k => String.append k "hash"

/-- The store right after `init_db` on a fresh database. -/
def emptyStore : Store := ⟨[], [], [], [], [], 0, 0, 0⟩

/-- A store holding 1001 usage events on the same day for customer "c". -/
def bigUsageStore : Store :=
  ⟨[], List.replicate 1001 ⟨"c", "h", ⟨2025, 10, 12, 1, 0, 0, 0⟩, "api", true⟩,
   [], [], [], 0, 0, 0⟩

/-- A store holding a single usage event for customer "c" on 2025-01-15. -/
def oneEventStore : Store :=
  ⟨[], [⟨"c", "h", ⟨2025, 1, 15, 8, 30, 0, 0⟩, "api", true⟩], [], [], [], 0, 0, 0⟩

/-- A one-key store whose key is already revoked. -/
def revokedKeyStore : Store :=
  ⟨[⟨0, "alice", "hash0", "Default Key", true⟩], [], [], [], [], 1, 0, 0⟩

/-- A one-key store with a live key for customer "alice" whose digest is
"oldhash" (the `hashW` image of "old"). -/
def oneKeyStore : Store :=
  ⟨[⟨0, "alice", "oldhash", "Default Key", false⟩], [], [], [], [], 1, 0, 0⟩

/-- A store with one "alice" ticket (id 0) carrying one automated
response. -/
def ticketStore : Store :=
  ⟨[], [], [⟨0, "alice", "Need to reset key", "help", "general", "open", true⟩],
   [⟨0, 0, false, apiKeyResponse⟩], [], 0, 1, 1⟩

set_option maxRecDepth 100000

/-- C3: the auto-responder on `subject`, `message`: when the lowercased
subject-plus-message text contains "api key" it returns the fixed
key-rotation instructions; when no keyword set matches it returns no
response; and the fixed priority order decides when several sets match
(API-key set over usage set over billing set over rate-limit set). -/
theorem generate_ai_response_keyword_rules (subject message category : String) :
    (strContains (responderText subject message) "api key" = true →
      generate_ai_response subject message category = some apiKeyResponse) ∧
    (matchesApiKeySet (responderText subject message) = true →
      generate_ai_response subject message category = some apiKeyResponse) ∧
    (matchesApiKeySet (responderText subject message) = false →
      matchesUsageSet (responderText subject message) = true →
      generate_ai_response subject message category = some usageResponse) ∧
    (matchesApiKeySet (responderText subject message) = false →
      matchesUsageSet (responderText subject message) = false →
      matchesBillingSet (responderText subject message) = true →
      generate_ai_response subject message category = some billingResponse) ∧
    (matchesApiKeySet (responderText subject message) = false →
      matchesUsageSet (responderText subject message) = false →
      matchesBillingSet (responderText subject message) = false →
      matchesRateLimitSet (responderText subject message) = true →
      generate_ai_response subject message category = some rateLimitResponse) ∧
    (matchesApiKeySet (responderText subject message) = false →
      matchesUsageSet (responderText subject message) = false →
      matchesBillingSet (responderText subject message) = false →
      matchesRateLimitSet (responderText subject message) = false →
      generate_ai_response subject message category = none) := by
  simp only [matchesApiKeySet, matchesUsageSet, matchesBillingSet, matchesRateLimitSet,
    responderText, Bool.or_eq_true, Bool.or_eq_false_iff]
  refine ⟨?_, ?_, ?_, ?_, ?_, ?_⟩
  · intro h
    simp [generate_ai_response, h]
  · intro h
    rcases h with h | h <;> simp [generate_ai_response, h]
  · rintro ⟨h1, h2⟩ h3
    rcases h3 with (h3 | h3) | h3 <;> simp [generate_ai_response, h1, h2, h3]
  · rintro ⟨h1, h2⟩ ⟨⟨h3, h4⟩, h5⟩ h6
    rcases h6 with (h6 | h6) | h6 <;> simp [generate_ai_response, h1, h2, h3, h4, h5, h6]
  · rintro ⟨h1, h2⟩ ⟨⟨h3, h4⟩, h5⟩ ⟨⟨h6, h7⟩, h8⟩ h9
    rcases h9 with (h9 | h9) | h9 <;>
      simp [generate_ai_response, h1, h2, h3, h4, h5, h6, h7, h8, h9]
  · rintro ⟨h1, h2⟩ ⟨⟨h3, h4⟩, h5⟩ ⟨⟨h6, h7⟩, h8⟩ ⟨⟨h9, h10⟩, h11⟩
    simp [generate_ai_response, h1, h2, h3, h4, h5, h6, h7, h8, h9, h10, h11]

/-- Witness for C3: each branch of the keyword rules exercised at a
concrete ticket text. -/
theorem generate_ai_response_keyword_rules_witness :
    generate_ai_response "My API Key is broken" "also my usage bill hit the rate limit 429" "general" = some apiKeyResponse ∧
    generate_ai_response "Usage question" "how many calls did I make" "general" = some usageResponse ∧
    generate_ai_response "Invoice question" "why was there a new charge" "billing" = some billingResponse ∧
    generate_ai_response "Getting 429 errors" "seems to be the rate limit" "general" = some rateLimitResponse ∧
    generate_ai_response "Hello" "just saying thanks" "general" = none :=
  ⟨(generate_ai_response_keyword_rules _ _ _).1 (by decide),
   (generate_ai_response_keyword_rules _ _ _).2.2.1 (by decide) (by decide),
   (generate_ai_response_keyword_rules _ _ _).2.2.2.1 (by decide) (by decide) (by decide),
   (generate_ai_response_keyword_rules _ _ _).2.2.2.2.1 (by decide) (by decide) (by decide) (by decide),
   (generate_ai_response_keyword_rules _ _ _).2.2.2.2.2 (by decide) (by decide) (by decide) (by decide)⟩

/-- C7: a customer with zero rows in the `usage` table gets usage stats
`{today := 0, this_month := 0, all_time := 0, current_rate_limit := 1000,
rate_limit_reset := none}`. -/
theorem get_usage_stats_zero_events (s : Store) (customer_id : String)
    (now : PyDateTime) (h : ∀ e ∈ s.usage, e.customer_id ≠ customer_id) :
    get_usage_stats s customer_id now =
      { today := 0, this_month := 0, all_time := 0,
        current_rate_limit := 1000, rate_limit_reset := none } := by
  have h1 : s.usage.filter
      (fun e => e.customer_id == customer_id && sameDay e.timestamp now) = [] := by
    rw [List.filter_eq_nil_iff]
    intro e he
    simp [h e he]
  have h2 : s.usage.filter
      (fun e => e.customer_id == customer_id && sameMonth e.timestamp now) = [] := by
    rw [List.filter_eq_nil_iff]
    intro e he
    simp [h e he]
  have h3 : s.usage.filter (fun e => e.customer_id == customer_id) = [] := by
    rw [List.filter_eq_nil_iff]
    intro e he
    simp [h e he]
  simp [get_usage_stats, h1, h2, h3]

/-- Witness for C7 at a concrete empty store. -/
theorem get_usage_stats_zero_events_witness :
    get_usage_stats emptyStore "alice" ⟨2025, 10, 12, 9, 30, 0, 0⟩ =
      { today := 0, this_month := 0, all_time := 0,
        current_rate_limit := 1000, rate_limit_reset := none } :=
  get_usage_stats_zero_events _ _ _ (by decide)

/-- C10: `current_rate_limit` is always 1000 minus today's event count as
an integer, with no clamping: more than 1000 events today yields a
negative value. -/
theorem get_usage_stats_rate_limit_never_clamped (s : Store)
    (customer_id : String) (now : PyDateTime) :
    (get_usage_stats s customer_id now).current_rate_limit =
      1000 - ((s.usage.filter
        (fun e => e.customer_id == customer_id && sameDay e.timestamp now)).length : Int) ∧
    (1000 < (s.usage.filter
        (fun e => e.customer_id == customer_id && sameDay e.timestamp now)).length →
      (get_usage_stats s customer_id now).current_rate_limit < 0) := by
  refine ⟨rfl, ?_⟩
  intro h
  have h1 : (get_usage_stats s customer_id now).current_rate_limit =
      1000 - ((s.usage.filter
        (fun e => e.customer_id == customer_id && sameDay e.timestamp now)).length : Int) := rfl
  rw [h1]
  omega

/-- Witness for C10: with 1001 events today the reported remaining rate
limit is negative. -/
theorem get_usage_stats_rate_limit_never_clamped_witness :
    (get_usage_stats bigUsageStore "c" ⟨2025, 10, 12, 9, 0, 0, 0⟩).current_rate_limit < 0 :=
  (get_usage_stats_rate_limit_never_clamped _ _ _).2 (by
    rw [show bigUsageStore.usage =
        List.replicate 1001 ⟨"c", "h", ⟨2025, 10, 12, 1, 0, 0, 0⟩, "api", true⟩ from rfl,
      List.filter_replicate]
    simp [sameDay])

/-- `addOneDay` only moves the calendar date: all four time-of-day fields
are preserved, exactly like Python's `timedelta(days=1)`. -/
theorem addOneDay_time_fields (d : PyDateTime) :
    (addOneDay d).hour = d.hour ∧ (addOneDay d).minute = d.minute ∧
    (addOneDay d).second = d.second ∧ (addOneDay d).microsecond = d.microsecond := by
  unfold addOneDay
  split
  · exact ⟨rfl, rfl, rfl, rfl⟩
  · split
    · exact ⟨rfl, rfl, rfl, rfl⟩
    · exact ⟨rfl, rfl, rfl, rfl⟩

/-- Counterexample to C8: at 2025-01-15 12:00:00.500000 with one event
today, the reported reset is 2025-01-16 00:00:00.500000, not the next
midnight — `datetime.replace(hour=0, minute=0, second=0)` on line 280
leaves the microsecond field untouched. -/
theorem usage_stats_reset_not_midnight_counterexample :
    0 < (get_usage_stats oneEventStore "c" ⟨2025, 1, 15, 12, 0, 0, 500000⟩).today ∧
    (get_usage_stats oneEventStore "c" ⟨2025, 1, 15, 12, 0, 0, 500000⟩).rate_limit_reset ≠
      some (specNextMidnight ⟨2025, 1, 15, 12, 0, 0, 500000⟩) := by
  refine ⟨by decide, ?_⟩
  intro h
  have h2 : (500000 : Nat) = 0 := congrArg
    (fun o => ((o.getD ⟨0, 0, 0, 0, 0, 0, 0⟩).microsecond : Nat)) h
  exact absurd h2 (by decide)

/-- C8 amended: `rate_limit_reset` is `none` exactly when today's count is
zero; when today's count is positive it is the following day at 00:00:00
with the request instant's microsecond component preserved. -/
theorem get_usage_stats_reset_amended (s : Store) (customer_id : String)
    (now : PyDateTime) :
    ((s.usage.filter
        (fun e => e.customer_id == customer_id && sameDay e.timestamp now)).length = 0 →
      (get_usage_stats s customer_id now).rate_limit_reset = none) ∧
    (0 < (s.usage.filter
        (fun e => e.customer_id == customer_id && sameDay e.timestamp now)).length →
      (get_usage_stats s customer_id now).rate_limit_reset =
        some { specNextMidnight now with microsecond := now.microsecond }) := by
  constructor
  · intro h
    simp [get_usage_stats, h]
  · intro h
    have hms := (addOneDay_time_fields now).2.2.2
    simp only [get_usage_stats, specNextMidnight]
    rw [if_pos h]
    simp [hms]

/-- Witness for the amended C8 at concrete inputs: an empty store gives no
reset time; one event today gives the following day at 00:00:00.500000. -/
theorem get_usage_stats_reset_amended_witness :
    (get_usage_stats emptyStore "c" ⟨2025, 1, 15, 12, 0, 0, 500000⟩).rate_limit_reset = none ∧
    (get_usage_stats oneEventStore "c" ⟨2025, 1, 15, 12, 0, 0, 500000⟩).rate_limit_reset =
      some { specNextMidnight ⟨2025, 1, 15, 12, 0, 0, 500000⟩ with microsecond := 500000 } :=
  ⟨(get_usage_stats_reset_amended _ _ _).1 (by decide),
   (get_usage_stats_reset_amended _ _ _).2 (by decide)⟩

/-- The UPDATE of `revoke_api_key` is the identity on a table in which
every row matching both the key id and the customer is already revoked. -/
theorem revokeUpdate_noop (customer_id : String) (key_id : Nat) (l : List ApiKeyRow)
    (h : ∀ k ∈ l, k.id = key_id → k.customer_id = customer_id → k.revoked = true) :
    revokeUpdate customer_id key_id l = l := by
  unfold revokeUpdate
  conv_rhs => rw [← List.map_id l]
  apply List.map_congr_left
  intro k hk
  by_cases h1 : (k.id == key_id && k.customer_id == customer_id) = true
  · rw [Bool.and_eq_true, beq_iff_eq, beq_iff_eq] at h1
    have h2 := h k hk h1.1 h1.2
    rcases k with ⟨i, cu, ha, na, rev⟩
    simp only at h1 h2
    simp [h1.1, h1.2, h2]
  · simp [h1]

/-- Applying the UPDATE of `revoke_api_key` twice equals applying it
once. -/
theorem revokeUpdate_idem (customer_id : String) (key_id : Nat) (l : List ApiKeyRow) :
    revokeUpdate customer_id key_id (revokeUpdate customer_id key_id l) =
      revokeUpdate customer_id key_id l := by
  unfold revokeUpdate
  rw [List.map_map]
  apply List.map_congr_left
  intro k _
  by_cases h1 : (k.id == key_id && k.customer_id == customer_id) = true
  · simp [Function.comp, h1]
  · simp [Function.comp, h1]

/-- C6: `revoke_api_key` always returns the fixed success message; when no
row of the store matches both the key id and the requesting customer in a
non-revoked state (key absent, foreign, or already revoked) the store is
left completely unchanged; and revoking twice equals revoking once. -/
theorem revoke_api_key_noop_and_idempotent (s : Store) (customer_id : String)
    (key_id : Nat) :
    (revoke_api_key s customer_id key_id).1 = "API key revoked" ∧
    ((∀ k ∈ s.api_keys, k.id = key_id → k.customer_id = customer_id → k.revoked = true) →
      (revoke_api_key s customer_id key_id).2 = s) ∧
    (revoke_api_key (revoke_api_key s customer_id key_id).2 customer_id key_id).2 =
      (revoke_api_key s customer_id key_id).2 := by
  refine ⟨rfl, ?_, ?_⟩
  · intro h
    show ({ s with api_keys := revokeUpdate customer_id key_id s.api_keys } : Store) = s
    rw [revokeUpdate_noop customer_id key_id s.api_keys h]
  · show ({ s with
        api_keys := revokeUpdate customer_id key_id (revokeUpdate customer_id key_id s.api_keys) } : Store) =
      { s with api_keys := revokeUpdate customer_id key_id s.api_keys }
    rw [revokeUpdate_idem customer_id key_id s.api_keys]

/-- Witness for C6: revoking an already-revoked key and a non-existent key
both report success and leave the concrete store untouched. -/
theorem revoke_api_key_noop_and_idempotent_witness :
    (revoke_api_key revokedKeyStore "alice" 0).2 = revokedKeyStore ∧
    (revoke_api_key revokedKeyStore "alice" 99).2 = revokedKeyStore ∧
    (revoke_api_key revokedKeyStore "bob" 0).2 = revokedKeyStore :=
  ⟨(revoke_api_key_noop_and_idempotent revokedKeyStore "alice" 0).2.1 (by decide),
   (revoke_api_key_noop_and_idempotent revokedKeyStore "alice" 99).2.1 (by decide),
   (revoke_api_key_noop_and_idempotent revokedKeyStore "bob" 0).2.1 (by decide)⟩

/-- C2: when no non-revoked key of the requesting customer has the digest
of `old_key` (key absent, already revoked, or owned by another customer),
`rotate_api_key` fails with `notFound` (404) and returns the store
completely unchanged. -/
theorem rotate_api_key_not_found (hashFn : String → String) (s : Store)
    (customer_id old_key new_key : String)
    (h : ∀ k ∈ s.api_keys,
      ¬(k.customer_id = customer_id ∧ k.key_hash = hashFn old_key ∧ k.revoked = false)) :
    rotate_api_key hashFn s customer_id old_key new_key = (.error .notFound, s) := by
  have hf : s.api_keys.find?
      (fun k => k.customer_id == customer_id && k.key_hash == hashFn old_key && k.revoked == false) = none := by
    rw [List.find?_eq_none]
    intro k hk
    simp only [Bool.and_eq_true, beq_iff_eq, not_and]
    rintro ⟨h1, h2⟩ h3
    exact h k hk ⟨h1, h2, h3⟩
  simp only [rotate_api_key]
  rw [hf]

/-- Witness for C2: rotating with a digest that only matches a revoked row
fails 404 and leaves the concrete store unchanged; so does a digest
matching nothing at all. -/
theorem rotate_api_key_not_found_witness :
    rotate_api_key (fun _ => "hash0") revokedKeyStore "alice" "oldkey" "newkey" =
      (.error .notFound, revokedKeyStore) ∧
    rotate_api_key (fun _ => "otherhash") revokedKeyStore "alice" "oldkey" "newkey" =
      (.error .notFound, revokedKeyStore) :=
  ⟨rotate_api_key_not_found _ _ _ _ _ (by decide),
   rotate_api_key_not_found _ _ _ _ _ (by decide)⟩

/-- Revoking one key id inside a table commutes with selecting a
customer's non-revoked keys: afterwards they are exactly the previous
selection minus the rows carrying that id. -/
theorem filter_nonrevoked_after_idRevoke (c : String) (i : Nat) (l : List ApiKeyRow) :
    (l.map (fun k => if k.id == i then { k with revoked := true } else k)).filter
        (fun k => k.customer_id == c && k.revoked == false) =
      (l.filter (fun k => k.customer_id == c && k.revoked == false)).filter
        (fun k => !(k.id == i)) := by
  rw [List.filter_map]
  have h1 : l.filter ((fun k => k.customer_id == c && k.revoked == false) ∘
      (fun k => if k.id == i then { k with revoked := true } else k)) =
      l.filter (fun k => !(k.id == i) && (k.customer_id == c && k.revoked == false)) := by
    apply List.filter_congr
    intro k _
    by_cases hki : k.id = i
    · simp [hki]
    · simp [hki]
  rw [h1, ← List.filter_filter]
  conv_rhs => rw [← List.map_id ((l.filter (fun k => k.customer_id == c && k.revoked == false)).filter (fun k => !(k.id == i)))]
  apply List.map_congr_left
  intro k hk
  rw [List.filter_filter, List.mem_filter] at hk
  have hki : (k.id == i) = false := by
    have h2 := hk.2
    rw [Bool.and_eq_true] at h2
    exact (Bool.not_eq_true' _).mp h2.1
  simp [hki]

/-- C1: rotating a plaintext whose digest matches a live key of the
customer succeeds: the new plaintext is returned with the fresh key id,
every row carrying the old digest is now revoked, the customer's
non-revoked keys are exactly the previous ones minus the matched row plus
the single newly created "Rotated Key" row, and the table grew by one
row. -/
theorem rotate_api_key_success (hashFn : String → String) (s : Store)
    (customer_id old_key new_key : String) (row : ApiKeyRow)
    (hwf : s.KeysWF)
    (hfind : s.api_keys.find?
      (fun k => k.customer_id == customer_id && k.key_hash == hashFn old_key && k.revoked == false) = some row)
    (hfresh : ∀ k ∈ s.api_keys, k.key_hash ≠ hashFn new_key) :
    (rotate_api_key hashFn s customer_id old_key new_key).1 =
      Except.ok ⟨s.next_key_id, new_key⟩ ∧
    (∀ k ∈ (rotate_api_key hashFn s customer_id old_key new_key).2.api_keys,
      k.key_hash = hashFn old_key → k.revoked = true) ∧
    (rotate_api_key hashFn s customer_id old_key new_key).2.api_keys.filter
        (fun k => k.customer_id == customer_id && k.revoked == false) =
      ((s.api_keys.filter (fun k => k.customer_id == customer_id && k.revoked == false)).filter
        (fun k => !(k.id == row.id))) ++
        [⟨s.next_key_id, customer_id, hashFn new_key, "Rotated Key", false⟩] ∧
    (rotate_api_key hashFn s customer_id old_key new_key).2.api_keys.length =
      s.api_keys.length + 1 := by
  have hrow_mem := List.mem_of_find?_eq_some hfind
  have hrowp := List.find?_some hfind
  rw [Bool.and_eq_true, Bool.and_eq_true, beq_iff_eq, beq_iff_eq, beq_iff_eq] at hrowp
  obtain ⟨⟨hrc, hrh⟩, hrv⟩ := hrowp
  have hany : s.api_keys.any (fun k => k.key_hash == hashFn new_key) = false := by
    rw [List.any_eq_false]
    intro k hk
    simp [hfresh k hk]
  have hstep : rotate_api_key hashFn s customer_id old_key new_key =
      (Except.ok ⟨s.next_key_id, new_key⟩,
       { s with
         api_keys :=
           (s.api_keys.map (fun k => if k.id == row.id then { k with revoked := true } else k))
             ++ [⟨s.next_key_id, customer_id, hashFn new_key, "Rotated Key", false⟩],
         next_key_id := s.next_key_id + 1 }) := by
    simp only [rotate_api_key]
    rw [hfind]
    simp [hany]
  refine ⟨by rw [hstep], ?_, ?_, ?_⟩
  · rw [hstep]
    intro k hk
    rcases List.mem_append.mp hk with hk | hk
    · rcases List.mem_map.mp hk with ⟨k0, hk0, rfl⟩
      by_cases hid : (k0.id == row.id) = true
      · intro _
        simp [hid]
      · intro hkh
        rw [if_neg hid] at hkh
        have hinj := List.inj_on_of_nodup_map hwf.2.1
        have hk0row : k0 = row := hinj hk0 hrow_mem (hkh.trans hrh.symm)
        exact absurd (by rw [hk0row]; simp) hid
    · intro hkh
      rw [List.mem_singleton] at hk
      subst hk
      simp only at hkh
      exact absurd (hrh.trans hkh.symm) (hfresh row hrow_mem)
  · rw [hstep]
    show (_ ++ [_] : List ApiKeyRow).filter _ = _
    rw [List.filter_append, filter_nonrevoked_after_idRevoke]
    simp
  · rw [hstep]
    simp

/-- Witness for C1 at a concrete one-key store: rotation returns the new
plaintext under key id 1, the customer's only non-revoked key afterwards
is the new "Rotated Key" row, and the table has two rows. -/
theorem rotate_api_key_success_witness :
    (rotate_api_key hashW oneKeyStore "alice" "old" "new").1 =
      Except.ok ⟨1, "new"⟩ ∧
    (rotate_api_key hashW oneKeyStore "alice" "old" "new").2.api_keys.filter
        (fun k => k.customer_id == "alice" && k.revoked == false) =
      [⟨1, "alice", "newhash", "Rotated Key", false⟩] ∧
    (rotate_api_key hashW oneKeyStore "alice" "old" "new").2.api_keys.length = 2 :=
  have h := rotate_api_key_success hashW oneKeyStore "alice" "old" "new"
    ⟨0, "alice", "oldhash", "Default Key", false⟩
    ⟨by decide, by decide, by decide⟩ (by decide) (by decide)
  ⟨h.1, by simpa using h.2.2.1, h.2.2.2⟩

/-- The `ai_responded` UPDATE of `create_ticket` is the identity on the
previously existing rows of the `tickets` table. -/
theorem ticketMap_noop (i : Nat) (l : List TicketRow) (h : ∀ t ∈ l, t.id ≠ i) :
    l.map (fun t => if t.id == i then { t with ai_responded := true } else t) = l := by
  conv_rhs => rw [← List.map_id l]
  apply List.map_congr_left
  intro t ht
  simp [h t ht]

/-- C4: creating a ticket persists one new row with the given subject,
message and category and status "open"; the auto-responder's verdict on
`subject`/`message` is reported as `ai_responded`, and exactly when it
produced a reply a single non-agent `ticket_responses` row referencing
the new ticket is persisted and the new ticket row carries
`ai_responded = true`; otherwise the responses table is untouched and the
flag stays false. -/
theorem create_ticket_spec (s : Store) (customer_id subject message category : String)
    (hwf : s.TicketsWF) :
    (create_ticket s customer_id subject message category).1.ticket_id = s.next_ticket_id ∧
    (create_ticket s customer_id subject message category).1.status = "open" ∧
    (create_ticket s customer_id subject message category).1.ai_responded =
      (generate_ai_response subject message category).isSome ∧
    (∀ resp, generate_ai_response subject message category = some resp →
      (create_ticket s customer_id subject message category).2.tickets =
        s.tickets ++ [⟨s.next_ticket_id, customer_id, subject, message, category, "open", true⟩] ∧
      (create_ticket s customer_id subject message category).2.ticket_responses =
        s.ticket_responses ++ [⟨s.next_response_id, s.next_ticket_id, false, resp⟩]) ∧
    (generate_ai_response subject message category = none →
      (create_ticket s customer_id subject message category).2.tickets =
        s.tickets ++ [⟨s.next_ticket_id, customer_id, subject, message, category, "open", false⟩] ∧
      (create_ticket s customer_id subject message category).2.ticket_responses =
        s.ticket_responses) := by
  have hrow : ∀ t ∈ s.tickets, t.id ≠ s.next_ticket_id := fun t ht => Nat.ne_of_lt (hwf t ht)
  rcases hgen : generate_ai_response subject message category with _ | resp0
  · refine ⟨?_, ?_, ?_, ?_, ?_⟩
    · simp only [create_ticket, hgen]
    · simp only [create_ticket, hgen]
    · simp only [create_ticket, hgen, Option.isSome_none]
    · intro resp hr
      exact absurd hr (by simp)
    · intro _
      constructor
      · simp only [create_ticket, hgen]
      · simp only [create_ticket, hgen]
  · refine ⟨?_, ?_, ?_, ?_, ?_⟩
    · simp only [create_ticket, hgen]
    · simp only [create_ticket, hgen]
    · simp only [create_ticket, hgen, Option.isSome_some]
    · intro resp hr
      have hr0 : resp0 = resp := by
        injection hr
      constructor
      · simp only [create_ticket, hgen]
        rw [List.map_append, ticketMap_noop _ _ hrow]
        simp
      · simp only [create_ticket, hgen]
        rw [hr0]
    · intro hnone
      exact absurd hnone (by simp)

/-- Witness for C4 at concrete inputs: a keyword-matching ticket persists
the row flagged `ai_responded` plus one automated response; an
unmatched ticket persists only the row, with an untouched responses
table. -/
theorem create_ticket_spec_witness :
    (create_ticket emptyStore "alice" "Need to reset key" "help" "general").1.ai_responded = true ∧
    (create_ticket emptyStore "alice" "Need to reset key" "help" "general").2.ticket_responses =
      [⟨0, 0, false, apiKeyResponse⟩] ∧
    (create_ticket emptyStore "alice" "Hello" "just saying thanks" "general").1.ai_responded = false ∧
    (create_ticket emptyStore "alice" "Hello" "just saying thanks" "general").2.ticket_responses = [] :=
  have h1 := create_ticket_spec emptyStore "alice" "Need to reset key" "help" "general"
    (fun t ht => absurd ht (List.not_mem_nil t))
  have h2 := create_ticket_spec emptyStore "alice" "Hello" "just saying thanks" "general"
    (fun t ht => absurd ht (List.not_mem_nil t))
  ⟨by rw [h1.2.2.1]; decide,
   by have := (h1.2.2.2.1 apiKeyResponse (by decide)).2; simpa using this,
   by rw [h2.2.2.1]; decide,
   (h2.2.2.2.2 (by decide)).2⟩

/-- C5: ticket data is customer-scoped: listing tickets as customer `a`
only ever returns rows whose `customer_id` is `a`; asking for the
responses of a ticket that does not exist or belongs to someone else
fails with `notFound` (404); and a successful response listing only
returns rows of the requested ticket, which then provably belongs to
`a`. -/
theorem ticket_customer_isolation (s : Store) (a : String) (ticket_id : Nat) :
    (∀ t ∈ list_tickets s a, t.customer_id = a) ∧
    ((∀ t ∈ s.tickets, ¬(t.id = ticket_id ∧ t.customer_id = a)) →
      get_ticket_responses s a ticket_id = .error .notFound) ∧
    (∀ rs, get_ticket_responses s a ticket_id = .ok rs →
      (∃ t ∈ s.tickets, t.id = ticket_id ∧ t.customer_id = a) ∧
      ∀ r ∈ rs, r.ticket_id = ticket_id) := by
  refine ⟨?_, ?_, ?_⟩
  · intro t ht
    simp only [list_tickets, List.mem_reverse, List.mem_filter, beq_iff_eq] at ht
    exact ht.2
  · intro h
    have hf : s.tickets.find? (fun t => t.id == ticket_id && t.customer_id == a) = none := by
      rw [List.find?_eq_none]
      intro t ht
      simp only [Bool.and_eq_true, beq_iff_eq]
      exact h t ht
    simp only [get_ticket_responses]
    rw [hf]
  · intro rs hok
    simp only [get_ticket_responses] at hok
    rcases hfind : s.tickets.find? (fun t => t.id == ticket_id && t.customer_id == a) with _ | t
    · rw [hfind] at hok
      exact absurd hok (by simp)
    · rw [hfind] at hok
      have hmem := List.mem_of_find?_eq_some hfind
      have hp := List.find?_some hfind
      rw [Bool.and_eq_true, beq_iff_eq, beq_iff_eq] at hp
      have hrs : s.ticket_responses.filter (fun r => r.ticket_id == ticket_id) = rs := by
        injection hok
      refine ⟨⟨t, hmem, hp⟩, ?_⟩
      intro r hr
      rw [← hrs, List.mem_filter, beq_iff_eq] at hr
      exact hr.2

/-- Witness for C5: on a concrete store, "bob" cannot read the responses
of the ticket of "alice", a non-existent ticket id is 404 for its owner
too, and the one response "alice" can read belongs to her ticket 0. -/
theorem ticket_customer_isolation_witness :
    get_ticket_responses ticketStore "bob" 0 = .error .notFound ∧
    get_ticket_responses ticketStore "alice" 99 = .error .notFound ∧
    (⟨0, 0, false, apiKeyResponse⟩ : TicketResponseRow).ticket_id = 0 :=
  ⟨(ticket_customer_isolation ticketStore "bob" 0).2.1 (by decide),
   (ticket_customer_isolation ticketStore "alice" 99).2.1 (by decide),
   ((ticket_customer_isolation ticketStore "alice" 0).2.2
     [⟨0, 0, false, apiKeyResponse⟩] rfl).2
     ⟨0, 0, false, apiKeyResponse⟩ (by decide)⟩

/-- Counterexample to C9: on a fresh store, a request without the
`X-Customer-ID` header is rejected by every identity-scoped endpoint with
the 422 validation error of a missing required parameter — not with the
claimed 401 Unauthorized (the `verify_customer` body never runs). -/
theorem missing_header_not_unauthorized_counterexample :
    (rotate_endpoint hashW emptyStore none "old" "new").1 = Except.error HError.unprocessableEntity ∧
    (rotate_endpoint hashW emptyStore none "old" "new").1 ≠ Except.error HError.unauthorized ∧
    list_keys_endpoint emptyStore none ≠ Except.error HError.unauthorized ∧
    (revoke_endpoint emptyStore none 0).1 ≠ Except.error HError.unauthorized ∧
    usage_stats_endpoint emptyStore none ⟨2025, 1, 1, 0, 0, 0, 0⟩ ≠ Except.error HError.unauthorized ∧
    billing_history_endpoint emptyStore none ≠ Except.error HError.unauthorized ∧
    (create_ticket_endpoint emptyStore none "s" "m" "general").1 ≠ Except.error HError.unauthorized ∧
    list_tickets_endpoint emptyStore none ≠ Except.error HError.unauthorized ∧
    ticket_responses_endpoint emptyStore none 0 ≠ Except.error HError.unauthorized := by
  refine ⟨rfl, ?_, ?_, ?_, ?_, ?_, ?_, ?_, ?_⟩ <;>
    · intro h
      injection h with h2
      exact HError.noConfusion h2

/-- C9 amended: on every identity-scoped endpoint, a request without the
`X-Customer-ID` header fails with the 422 validation error and leaves the
store unchanged, while a request carrying the header with an empty value
fails with 401 Unauthorized. -/
theorem missing_header_rejected_as_validation_error (hashFn : String → String)
    (s : Store) (old_key new_key : String) (key_id : Nat) (now : PyDateTime)
    (subject message category : String) (ticket_id : Nat) :
    verify_customer none = .error .unprocessableEntity ∧
    verify_customer (some "") = .error .unauthorized ∧
    rotate_endpoint hashFn s none old_key new_key = (.error .unprocessableEntity, s) ∧
    list_keys_endpoint s none = .error .unprocessableEntity ∧
    revoke_endpoint s none key_id = (.error .unprocessableEntity, s) ∧
    usage_stats_endpoint s none now = .error .unprocessableEntity ∧
    billing_history_endpoint s none = .error .unprocessableEntity ∧
    create_ticket_endpoint s none subject message category = (.error .unprocessableEntity, s) ∧
    list_tickets_endpoint s none = .error .unprocessableEntity ∧
    ticket_responses_endpoint s none ticket_id = .error .unprocessableEntity :=
  ⟨rfl, rfl, rfl, rfl, rfl, rfl, rfl, rfl, rfl, rfl⟩
